import Mathlib

/-!
Shallow embedding of the state-access layer of `blockifier`
(`src/blockifier/src/cached_state.rs`) and of the felt/bigint conversion
utilities (`src/blockifier/src/execution/cairo_run_utils.rs`), with theorems
settling the specification claims about them.

Modelling conventions:
* Rust `HashMap<K, V>` is modelled as a function `K → Option V` (`HMap`);
  the cache only relies on lookup and insert.
* `anyhow::Result<T>` is modelled as `Except String T` (errors carry a
  message string).
* `starknet_api` key types (`ContractAddress`, `StorageKey`) are opaque to
  the cache (only equality and hashing are used); they are modelled as `Nat`.
* `starknet_api::hash::StarkFelt` is a 32-byte big-endian value whose
  constructor enforces that the top four bits are zero (value < 2 ^ 252);
  it is modelled as a bounded natural number.
* A `StateReader` (Rust trait, queried through `&self`) is modelled as a
  pure function from a contract storage key to a fallible felt.
-/

/-- Upper bound enforced by the `starknet_api` `StarkFelt` constructor:
the first byte of the 32-byte big-endian encoding must be below `0x10`,
i.e. the value is below `2 ^ 252`. -/
def FELT_UPPER : Nat := 2 ^ 252

/-- `starknet_api::hash::StarkFelt`: a field-element value, kept with its
constructor bound. -/
abbrev StarkFelt := {n : Nat // n < FELT_UPPER}

/-- `starknet_api::core::ContractAddress`, opaque key type. -/
abbrev ContractAddress := Nat

/-- `starknet_api::state::StorageKey`, opaque key type. -/
abbrev StorageKey := Nat

/-- `starknet_api::core::Nonce`: a newtype over a felt. -/
structure Nonce where
  val : StarkFelt
deriving DecidableEq

/-- `starknet_api::core::ClassHash`: a newtype over a felt. -/
structure ClassHash where
  val : StarkFelt
deriving DecidableEq

/-- `type ContractStorageKey = (ContractAddress, StorageKey);` -/
abbrev ContractStorageKey := ContractAddress × StorageKey

/-- Model of Rust `HashMap<K, V>`: only lookup and insert are used by the
cache, so a map is a function to `Option`. -/
def HMap (α β : Type) : Type := α → Option β

/-- `HashMap::get`. -/
def HMap.find (m : HMap α β) (k : α) : Option β := m k

/-- `HashMap::insert` (blind: overwrites an existing entry). -/
def HMap.insert [DecidableEq α] (m : HMap α β) (k : α) (v : β) : HMap α β :=
  fun k2 => if k2 = k then some v else m k2

/-- `HashMap::new` / `Default`. -/
def HMap.empty : HMap α β := fun _ => none

theorem HMap.insert_self [DecidableEq α] (m : HMap α β) (k : α) (v : β) :
    (m.insert k v) k = some v := by
  simp [HMap.insert]

theorem HMap.insert_ne [DecidableEq α] (m : HMap α β) (k k2 : α) (v : β)
    (h : k2 ≠ k) : (m.insert k v) k2 = m k2 := by
  simp [HMap.insert, h]

/-- `StateCache`: reader-side initial values and writer-side written values,
one map per cell family. (The Rust field names carry a leading underscore on
the unused nonce/class-hash maps; the underscore is dropped here.) -/
structure StateCache where
  nonce_initial_values : HMap ContractAddress Nonce
  class_hash_initial_values : HMap ContractAddress ClassHash
  storage_initial_values : HMap ContractStorageKey StarkFelt
  nonce_writes : HMap ContractAddress Nonce
  class_hash_writes : HMap ContractAddress ClassHash
  storage_writes : HMap ContractStorageKey StarkFelt

/-- `StateCache::default()`: all maps empty. -/
def StateCache.default : StateCache :=
  ⟨HMap.empty, HMap.empty, HMap.empty, HMap.empty, HMap.empty, HMap.empty⟩

/-- `StateCache::get_storage_at`:
`self.storage_writes.get(&k).or_else(|| self.storage_initial_values.get(&k))`. -/
def StateCache.get_storage_at (c : StateCache) (contract_address : ContractAddress)
    (key : StorageKey) : Option StarkFelt :=
  match c.storage_writes (contract_address, key) with
  | some value => some value
  | none => c.storage_initial_values (contract_address, key)

/-- `StateCache::set_storage_initial_values`:
`self.storage_initial_values.insert(contract_storage_key, value)` —
a blind `HashMap::insert`. -/
def StateCache.set_storage_initial_values (c : StateCache)
    (contract_address : ContractAddress) (key : StorageKey) (value : StarkFelt) :
    StateCache :=
  { c with storage_initial_values :=
      c.storage_initial_values.insert (contract_address, key) value }

/-- `StateCache::set_storage_writes`:
`self.storage_writes.insert(contract_storage_key, value)`. -/
def StateCache.set_storage_writes (c : StateCache)
    (contract_address : ContractAddress) (key : StorageKey) (value : StarkFelt) :
    StateCache :=
  { c with storage_writes :=
      c.storage_writes.insert (contract_address, key) value }

/-- `fn uninitialized_felt() -> StarkFelt { StarkFelt::default() }`:
the all-zero felt. -/
def uninitialized_felt : StarkFelt := ⟨0, by norm_num [FELT_UPPER]⟩

/-- `fn default_storage_value() -> StarkFelt { uninitialized_felt() }`. -/
def default_storage_value : StarkFelt := uninitialized_felt

/-- `DictStateReader`: `StateReader` backed by an in-memory map. -/
structure DictStateReader where
  contract_storage_key_to_value : HMap ContractStorageKey StarkFelt

/-- `impl StateReader for DictStateReader`: `get_storage_at` looks the pair
up and falls back to `default_storage_value()`; always `Ok`. -/
def DictStateReader.get_storage_at (r : DictStateReader)
    (contract_address : ContractAddress) (key : StorageKey) :
    Except String StarkFelt :=
  Except.ok ((r.contract_storage_key_to_value (contract_address, key)).getD
    default_storage_value)

/-- `CachedState<SR>`: a state reader plus a private `StateCache`.  The
reader (a Rust trait object queried through `&self`) is modelled as a pure
function from contract storage key to fallible felt. -/
structure CachedState where
  state_reader : ContractStorageKey → Except String StarkFelt
  cache : StateCache

/-- `CachedState::new`. -/
def CachedState.new (state_reader : ContractStorageKey → Except String StarkFelt) :
    CachedState :=
  ⟨state_reader, StateCache.default⟩

/-- The `format!("Cannot retrieve ... from the cache.")` message attached by
`with_context` when the cache lookup after a fill is unexpectedly absent. -/
def cacheMissErrorMessage (contract_address : ContractAddress) (key : StorageKey) :
    String :=
  "Cannot retrieve " ++ toString contract_address ++ " and " ++ toString key ++
    " from the cache."

/-- The tail of `CachedState::get_storage_at`:
`self.cache.get_storage_at(...).with_context(...)` — turns the `Option`
into a `Result`, leaving the state untouched. -/
def CachedState.cacheLookupOrError (s : CachedState)
    (contract_address : ContractAddress) (key : StorageKey) :
    Except String StarkFelt × CachedState :=
  match s.cache.get_storage_at contract_address key with
  | some value => (Except.ok value, s)
  | none => (Except.error (cacheMissErrorMessage contract_address key), s)

/-- `CachedState::get_storage_at(&mut self, ...) -> Result<&StarkFelt>`,
returning the result together with the updated state:
if the cache has no entry (neither layer), query the state reader (the `?`
operator propagates its error, leaving the state unchanged) and record the
result as an initial value; then serve the value from the cache. -/
def CachedState.get_storage_at (s : CachedState)
    (contract_address : ContractAddress) (key : StorageKey) :
    Except String StarkFelt × CachedState :=
  if (s.cache.get_storage_at contract_address key).isNone then
    match s.state_reader (contract_address, key) with
    | Except.error e => (Except.error e, s)
    | Except.ok storage_value =>
        CachedState.cacheLookupOrError
          { s with cache :=
              s.cache.set_storage_initial_values contract_address key storage_value }
          contract_address key
  else
    CachedState.cacheLookupOrError s contract_address key

/-- `CachedState::set_storage_at`: unconditionally records into the write
layer; total (the Rust function returns `()` and cannot fail). -/
def CachedState.set_storage_at (s : CachedState)
    (contract_address : ContractAddress) (key : StorageKey) (value : StarkFelt) :
    CachedState :=
  { s with cache := s.cache.set_storage_writes contract_address key value }

/-!
### Operation traces

A client of `CachedState` interleaves `get_storage_at` and `set_storage_at`
calls.  `runOps` replays such a sequence, additionally logging, for each
`get`, the contract storage keys for which the state reader was queried
(the reader is consulted exactly when the cache lookup at the head of
`CachedState::get_storage_at` is `None`).
-/

/-- One client operation on a `CachedState`. -/
inductive Op where
  | get : ContractAddress → StorageKey → Op
  | set : ContractAddress → StorageKey → StarkFelt → Op

/-- Whether an operation is a write to the given contract storage key. -/
def Op.writesTo : Op → ContractStorageKey → Bool
  | Op.set a k _, ck => decide ((a, k) = ck)
  | Op.get _ _, _ => false

/-- The reader queries issued by one operation from state `s`: a `get`
queries the reader exactly when the initial cache lookup misses; a `set`
never queries the reader. -/
def CachedState.queriesOf (s : CachedState) : Op → List ContractStorageKey
  | Op.get a k => if (s.cache.get_storage_at a k).isNone then [(a, k)] else []
  | Op.set _ _ _ => []

/-- The state after one operation. -/
def CachedState.applyOp (s : CachedState) : Op → CachedState
  | Op.get a k => (s.get_storage_at a k).2
  | Op.set a k v => s.set_storage_at a k v

/-- Replay a sequence of operations, returning the final state and the log
of reader queries, in order. -/
def CachedState.runOps (s : CachedState) : List Op → CachedState × List ContractStorageKey
  | [] => (s, [])
  | op :: rest =>
    let qs := s.queriesOf op
    let r := (s.applyOp op).runOps rest
    (r.1, qs ++ r.2)

/-!
### Basic lemmas about the cache layers
-/

theorem StateCache.get_storage_at_eq_none_iff (c : StateCache)
    (a : ContractAddress) (k : StorageKey) :
    c.get_storage_at a k = none ↔
      c.storage_writes (a, k) = none ∧ c.storage_initial_values (a, k) = none := by
  cases h : c.storage_writes (a, k) <;> simp [StateCache.get_storage_at, h]

theorem StateCache.get_storage_at_isSome_iff (c : StateCache)
    (a : ContractAddress) (k : StorageKey) :
    (c.get_storage_at a k).isSome ↔
      (c.storage_writes (a, k)).isSome ∨ (c.storage_initial_values (a, k)).isSome := by
  cases h : c.storage_writes (a, k) <;> simp [StateCache.get_storage_at, h]

theorem StateCache.get_storage_at_of_writes (c : StateCache)
    (a : ContractAddress) (k : StorageKey) (w : StarkFelt)
    (h : c.storage_writes (a, k) = some w) :
    c.get_storage_at a k = some w := by
  simp [StateCache.get_storage_at, h]

theorem StateCache.get_storage_at_of_writes_none (c : StateCache)
    (a : ContractAddress) (k : StorageKey)
    (h : c.storage_writes (a, k) = none) :
    c.get_storage_at a k = c.storage_initial_values (a, k) := by
  simp [StateCache.get_storage_at, h]

/-!
### Path lemmas for `CachedState::get_storage_at`

The function has exactly three behaviours: cache hit, cache miss with a
reader error, and cache miss with a successful reader query (fill).
-/

theorem CachedState.get_storage_at_of_hit (s : CachedState)
    (a : ContractAddress) (k : StorageKey) (w : StarkFelt)
    (h : s.cache.get_storage_at a k = some w) :
    s.get_storage_at a k = (Except.ok w, s) := by
  simp [CachedState.get_storage_at, CachedState.cacheLookupOrError, h]

theorem CachedState.get_storage_at_of_miss_error (s : CachedState)
    (a : ContractAddress) (k : StorageKey) (e : String)
    (h1 : s.cache.get_storage_at a k = none)
    (h2 : s.state_reader (a, k) = Except.error e) :
    s.get_storage_at a k = (Except.error e, s) := by
  simp [CachedState.get_storage_at, h1, h2]

theorem CachedState.get_storage_at_of_miss_ok (s : CachedState)
    (a : ContractAddress) (k : StorageKey) (v : StarkFelt)
    (h1 : s.cache.get_storage_at a k = none)
    (h2 : s.state_reader (a, k) = Except.ok v) :
    s.get_storage_at a k =
      (Except.ok v,
        { s with cache := s.cache.set_storage_initial_values a k v }) := by
  have hw : s.cache.storage_writes (a, k) = none :=
    ((StateCache.get_storage_at_eq_none_iff s.cache a k).mp h1).1
  have hfill :
      (s.cache.set_storage_initial_values a k v).get_storage_at a k = some v := by
    simp [StateCache.get_storage_at, StateCache.set_storage_initial_values,
      HMap.insert, hw]
  simp [CachedState.get_storage_at, CachedState.cacheLookupOrError, h1, h2, hfill]

/-- Every call to `CachedState::get_storage_at` follows one of the three
paths: hit, miss-and-error, or miss-and-fill. -/
theorem CachedState.get_storage_at_cases (s : CachedState)
    (a : ContractAddress) (k : StorageKey) :
    (∃ w, s.cache.get_storage_at a k = some w ∧
      s.get_storage_at a k = (Except.ok w, s)) ∨
    (∃ e, s.cache.get_storage_at a k = none ∧
      s.state_reader (a, k) = Except.error e ∧
      s.get_storage_at a k = (Except.error e, s)) ∨
    (∃ v, s.cache.get_storage_at a k = none ∧
      s.state_reader (a, k) = Except.ok v ∧
      s.get_storage_at a k =
        (Except.ok v,
          { s with cache := s.cache.set_storage_initial_values a k v })) := by
  cases hc : s.cache.get_storage_at a k with
  | some w =>
    exact Or.inl ⟨w, rfl, CachedState.get_storage_at_of_hit s a k w hc⟩
  | none =>
    cases hr : s.state_reader (a, k) with
    | error e =>
      exact Or.inr (Or.inl ⟨e, rfl, rfl,
        CachedState.get_storage_at_of_miss_error s a k e hc hr⟩)
    | ok v =>
      exact Or.inr (Or.inr ⟨v, rfl, rfl,
        CachedState.get_storage_at_of_miss_ok s a k v hc hr⟩)

/-!
### Preservation lemmas
-/

/-- Filling the initial layer at a key whose write entry is absent makes the
two-layer lookup return the filled value. -/
theorem StateCache.fill_get (c : StateCache) (a : ContractAddress) (k : StorageKey)
    (v : StarkFelt) (hw : c.storage_writes (a, k) = none) :
    (c.set_storage_initial_values a k v).get_storage_at a k = some v := by
  simp [StateCache.get_storage_at, StateCache.set_storage_initial_values,
    HMap.insert, hw]

theorem CachedState.get_snd_state_reader (s : CachedState)
    (a : ContractAddress) (k : StorageKey) :
    ((s.get_storage_at a k).2).state_reader = s.state_reader := by
  rcases CachedState.get_storage_at_cases s a k with
    ⟨w, hc, he⟩ | ⟨e, hc, hr, he⟩ | ⟨v, hc, hr, he⟩ <;> rw [he]

theorem CachedState.get_snd_storage_writes (s : CachedState)
    (a : ContractAddress) (k : StorageKey) :
    ((s.get_storage_at a k).2).cache.storage_writes = s.cache.storage_writes := by
  rcases CachedState.get_storage_at_cases s a k with
    ⟨w, hc, he⟩ | ⟨e, hc, hr, he⟩ | ⟨v, hc, hr, he⟩
  · rw [he]
  · rw [he]
  · rw [he]; rfl

/-- A present initial-layer entry survives any `get_storage_at` call with its
value intact. -/
theorem CachedState.get_snd_initial_some (s : CachedState)
    (a : ContractAddress) (k : StorageKey) (ck : ContractStorageKey) (w : StarkFelt)
    (h : s.cache.storage_initial_values ck = some w) :
    ((s.get_storage_at a k).2).cache.storage_initial_values ck = some w := by
  rcases CachedState.get_storage_at_cases s a k with
    ⟨v, hc, he⟩ | ⟨e, hc, hr, he⟩ | ⟨v, hc, hr, he⟩
  · rw [he]; exact h
  · rw [he]; exact h
  · rw [he]
    simp only [StateCache.set_storage_initial_values]
    by_cases hck : ck = (a, k)
    · subst hck
      have hnone := ((StateCache.get_storage_at_eq_none_iff s.cache a k).mp hc).2
      rw [hnone] at h
      cases h
    · rw [HMap.insert_ne _ _ _ _ hck]
      exact h

/-- A resolved key (present in either layer) stays resolved across a
`get_storage_at` call. -/
theorem CachedState.get_snd_resolved (s : CachedState)
    (a k a2 k2 : Nat)
    (h : (s.cache.get_storage_at a2 k2).isSome) :
    (((s.get_storage_at a k).2).cache.get_storage_at a2 k2).isSome := by
  rw [StateCache.get_storage_at_isSome_iff] at h ⊢
  rcases h with h | h
  · left
    rw [CachedState.get_snd_storage_writes]
    exact h
  · right
    obtain ⟨w, hw⟩ := Option.isSome_iff_exists.mp h
    rw [CachedState.get_snd_initial_some s a k (a2, k2) w hw]
    rfl

theorem CachedState.applyOp_state_reader (s : CachedState) (op : Op) :
    (s.applyOp op).state_reader = s.state_reader := by
  cases op with
  | get a k => exact CachedState.get_snd_state_reader s a k
  | set a k v => rfl

theorem CachedState.applyOp_initial_some (s : CachedState) (op : Op)
    (ck : ContractStorageKey) (w : StarkFelt)
    (h : s.cache.storage_initial_values ck = some w) :
    (s.applyOp op).cache.storage_initial_values ck = some w := by
  cases op with
  | get a k => exact CachedState.get_snd_initial_some s a k ck w h
  | set a k v => exact h

theorem CachedState.applyOp_resolved (s : CachedState) (op : Op)
    (a : ContractAddress) (k : StorageKey)
    (h : (s.cache.get_storage_at a k).isSome) :
    ((s.applyOp op).cache.get_storage_at a k).isSome := by
  cases op with
  | get a2 k2 => exact CachedState.get_snd_resolved s a2 k2 a k h
  | set a2 k2 v2 =>
    rw [StateCache.get_storage_at_isSome_iff] at h ⊢
    rcases h with h | h
    · left
      show ((s.cache.storage_writes.insert (a2, k2) v2) (a, k)).isSome
      by_cases hck : (a, k) = (a2, k2)
      · rw [hck, HMap.insert_self]; rfl
      · rw [HMap.insert_ne _ _ _ _ hck]; exact h
    · right; exact h

theorem CachedState.applyOp_writes_of_not_writesTo (s : CachedState) (op : Op)
    (ck : ContractStorageKey) (h : op.writesTo ck = false) :
    (s.applyOp op).cache.storage_writes ck = s.cache.storage_writes ck := by
  cases op with
  | get a k =>
    show ((s.get_storage_at a k).2).cache.storage_writes ck = s.cache.storage_writes ck
    rw [CachedState.get_snd_storage_writes]
  | set a k v =>
    have hne : ck ≠ (a, k) := by
      intro hck
      rw [Op.writesTo, hck] at h
      simp at h
    exact HMap.insert_ne _ _ _ _ hne

/-- From a state where `(a, k)` is resolved, no operation queries the reader
for `(a, k)`. -/
theorem CachedState.queriesOf_count_resolved (s : CachedState)
    (a : ContractAddress) (k : StorageKey) (op : Op)
    (h : (s.cache.get_storage_at a k).isSome) :
    (s.queriesOf op).count (a, k) = 0 := by
  cases op with
  | get a2 k2 =>
    by_cases hck : (a2, k2) = (a, k)
    · injection hck with h1 h2
      subst h1; subst h2
      cases hopt : s.cache.get_storage_at a2 k2 with
      | none => rw [hopt] at h; cases h
      | some w => simp [CachedState.queriesOf, hopt]
    · cases hif : (s.cache.get_storage_at a2 k2).isNone <;>
        simp [CachedState.queriesOf, hif, List.count_cons, hck]
  | set a2 k2 v2 => simp [CachedState.queriesOf]

/-- Initial-layer entries are stable (same value) across any operation
sequence. -/
theorem CachedState.runOps_initial_some (ops : List Op) :
    ∀ (s : CachedState) (ck : ContractStorageKey) (w : StarkFelt),
      s.cache.storage_initial_values ck = some w →
      (s.runOps ops).1.cache.storage_initial_values ck = some w := by
  induction ops with
  | nil => intro s ck w h; exact h
  | cons op rest ih =>
    intro s ck w h
    simp only [CachedState.runOps]
    exact ih (s.applyOp op) ck w (CachedState.applyOp_initial_some s op ck w h)

/-- From a state where `(a, k)` is resolved, an operation sequence issues no
reader query for `(a, k)` and leaves `(a, k)` resolved. -/
theorem CachedState.runOps_resolved (a : ContractAddress) (k : StorageKey)
    (ops : List Op) :
    ∀ s : CachedState, (s.cache.get_storage_at a k).isSome →
      (s.runOps ops).2.count (a, k) = 0 ∧
      ((s.runOps ops).1.cache.get_storage_at a k).isSome := by
  induction ops with
  | nil =>
    intro s h
    exact ⟨rfl, h⟩
  | cons op rest ih =>
    intro s h
    have h1 := CachedState.queriesOf_count_resolved s a k op h
    have h2 := ih (s.applyOp op) (CachedState.applyOp_resolved s op a k h)
    simp only [CachedState.runOps, List.count_append]
    constructor
    · rw [h1, h2.1]
    · exact h2.2

/-- If the reader answers `(a, k)` successfully, any operation sequence
queries the reader for `(a, k)` at most once. -/
theorem CachedState.runOps_count_le_one (a : ContractAddress) (k : StorageKey)
    (v : StarkFelt) (ops : List Op) :
    ∀ s : CachedState, s.state_reader (a, k) = Except.ok v →
      (s.runOps ops).2.count (a, k) ≤ 1 := by
  induction ops with
  | nil =>
    intro s _
    simp [CachedState.runOps]
  | cons op rest ih =>
    intro s hr
    simp only [CachedState.runOps, List.count_append]
    by_cases hres : (s.cache.get_storage_at a k).isSome
    · have h1 := CachedState.queriesOf_count_resolved s a k op hres
      have h2 := (CachedState.runOps_resolved a k rest (s.applyOp op)
        (CachedState.applyOp_resolved s op a k hres)).1
      rw [h1, h2]
      omega
    · have hnone : s.cache.get_storage_at a k = none :=
        Option.not_isSome_iff_eq_none.mp hres
      cases op with
      | get a2 k2 =>
        by_cases hck : (a2, k2) = (a, k)
        · injection hck with h1 h2
          subst h1; subst h2
          have hq : (s.queriesOf (Op.get a2 k2)).count (a2, k2) = 1 := by
            simp [CachedState.queriesOf, hnone]
          have hfillres :
              (((s.get_storage_at a2 k2).2).cache.get_storage_at a2 k2).isSome := by
            rw [CachedState.get_storage_at_of_miss_ok s a2 k2 v hnone hr]
            have hw := ((StateCache.get_storage_at_eq_none_iff s.cache a2 k2).mp hnone).1
            rw [StateCache.fill_get s.cache a2 k2 v hw]
            rfl
          have hrest := (CachedState.runOps_resolved a2 k2 rest
            ((s.get_storage_at a2 k2).2) hfillres).1
          rw [hq]
          show 1 + ((CachedState.applyOp s (Op.get a2 k2)).runOps rest).2.count (a2, k2) ≤ 1
          rw [show CachedState.applyOp s (Op.get a2 k2) = (s.get_storage_at a2 k2).2 from rfl]
          rw [hrest]
        · have hq : (s.queriesOf (Op.get a2 k2)).count (a, k) = 0 := by
            cases hif : (s.cache.get_storage_at a2 k2).isNone <;>
              simp [CachedState.queriesOf, hif, List.count_cons, hck]
          have hr2 : (s.applyOp (Op.get a2 k2)).state_reader (a, k) = Except.ok v := by
            rw [CachedState.applyOp_state_reader]; exact hr
          have hrest := ih (s.applyOp (Op.get a2 k2)) hr2
          rw [hq]
          simpa using hrest
      | set a2 k2 v2 =>
        have hq : (s.queriesOf (Op.set a2 k2 v2)).count (a, k) = 0 := by
          simp [CachedState.queriesOf]
        have hr2 : (s.applyOp (Op.set a2 k2 v2)).state_reader (a, k) = Except.ok v := by
          rw [CachedState.applyOp_state_reader]; exact hr
        have := ih (s.applyOp (Op.set a2 k2 v2)) hr2
        rw [hq]
        simpa using this

/-- The write layer at `ck` is untouched by any operation sequence that
contains no write to `ck`. -/
theorem CachedState.runOps_writes_preserved (ck : ContractStorageKey)
    (ops : List Op) :
    ∀ s : CachedState, (∀ op ∈ ops, op.writesTo ck = false) →
      (s.runOps ops).1.cache.storage_writes ck = s.cache.storage_writes ck := by
  induction ops with
  | nil => intro s _; rfl
  | cons op rest ih =>
    intro s h
    simp only [CachedState.runOps]
    rw [ih (s.applyOp op) (fun op2 hm => h op2 (List.mem_cons_of_mem op hm))]
    exact CachedState.applyOp_writes_of_not_writesTo s op ck
      (h op (List.mem_cons_self op rest))

/-- Two consecutive `get_storage_at` calls for the same key return the same
result (and the second call leaves the state of the first unchanged). -/
theorem CachedState.get_get_eq (s : CachedState)
    (a : ContractAddress) (k : StorageKey) :
    ((s.get_storage_at a k).2).get_storage_at a k =
      ((s.get_storage_at a k).1, (s.get_storage_at a k).2) := by
  rcases CachedState.get_storage_at_cases s a k with
    ⟨w, hc, he⟩ | ⟨e, hc, hr, he⟩ | ⟨v, hc, hr, he⟩
  · rw [he]
    exact CachedState.get_storage_at_of_hit s a k w hc
  · rw [he]
    exact CachedState.get_storage_at_of_miss_error s a k e hc hr
  · rw [he]
    have hw := ((StateCache.get_storage_at_eq_none_iff s.cache a k).mp hc).1
    exact CachedState.get_storage_at_of_hit _ a k v
      (StateCache.fill_get s.cache a k v hw)

/-!
### Felt / bigint conversion (`src/blockifier/src/execution/cairo_run_utils.rs`)

`felt_to_bigint` reads the felt's 32-byte big-endian encoding as a
non-negative `BigInt` (modelled as `Int`).  `bigint_to_felt` rejects
negative inputs, formats the value with `format!("{:#x}")` (the string
`0x` followed by the minimal lowercase hex digits, `0x0` for zero) and
parses it back through `StarkFelt::from_hex`.  Strings are modelled as
`List Char`.
-/

/-- `pub fn felt_to_bigint`: `BigInt::from_bytes_be(Sign::Plus, felt.bytes())`
— the felt's value as a non-negative integer. -/
def felt_to_bigint (felt : StarkFelt) : Int := (felt.val : Int)

/-- The lowercase hex digit characters used by `format!("{:x}")`. -/
def hexDigitChar : Nat → Char
  | 0 => '0' | 1 => '1' | 2 => '2' | 3 => '3' | 4 => '4'
  | 5 => '5' | 6 => '6' | 7 => '7' | 8 => '8' | 9 => '9'
  | 10 => 'a' | 11 => 'b' | 12 => 'c' | 13 => 'd' | 14 => 'e' | 15 => 'f'
  | _ => '?'

/-- Numeric value of a hex digit character (case-insensitive, as accepted
by the hex decoder behind `StarkFelt::from_hex`). -/
def hexCharVal (c : Char) : Option Nat :=
  if c = '0' then some 0 else if c = '1' then some 1
  else if c = '2' then some 2 else if c = '3' then some 3
  else if c = '4' then some 4 else if c = '5' then some 5
  else if c = '6' then some 6 else if c = '7' then some 7
  else if c = '8' then some 8 else if c = '9' then some 9
  else if c = 'a' ∨ c = 'A' then some 10 else if c = 'b' ∨ c = 'B' then some 11
  else if c = 'c' ∨ c = 'C' then some 12 else if c = 'd' ∨ c = 'D' then some 13
  else if c = 'e' ∨ c = 'E' then some 14 else if c = 'f' ∨ c = 'F' then some 15
  else none

/-- The digit part of `format!("{:#x}", n)` for a non-negative value: the
minimal lowercase hex digits, most significant first (`0` for zero). -/
def natToHexChars (n : Nat) : List Char :=
  if n = 0 then ['0'] else (Nat.digits 16 n).reverse.map hexDigitChar

/-- Big-endian hex parsing with an accumulator (the numeric effect of hex
decoding plus big-endian byte recomposition in `StarkFelt::from_hex`). -/
def parseHexAux : Nat → List Char → Option Nat
  | acc, [] => some acc
  | acc, c :: cs =>
    match hexCharVal c with
    | some d => parseHexAux (acc * 16 + d) cs
    | none => none

/-- `StarkFelt::from_hex`: requires the `0x` prefix, decodes the hex digits,
and enforces the `StarkFelt` constructor bound (top four bits zero). -/
def StarkFelt.from_hex (cs : List Char) : Except String StarkFelt :=
  match cs with
  | '0' :: 'x' :: ds =>
    match parseHexAux 0 ds with
    | some n =>
      if h : n < FELT_UPPER then Except.ok ⟨n, h⟩
      else Except.error "felt value out of range"
    | none => Except.error "invalid hex digit"
  | _ => Except.error "missing hex prefix"

/-- `pub fn bigint_to_felt`: bail on a negative input, otherwise format the
value as `format!("{:#x}")` and parse it with `StarkFelt::from_hex`. -/
def bigint_to_felt (bigint : Int) : Except String StarkFelt :=
  if bigint < 0 then Except.error "The given BigInt is negative."
  else StarkFelt.from_hex ('0' :: 'x' :: natToHexChars bigint.toNat)

theorem hexCharVal_hexDigitChar : ∀ d : Nat, d < 16 →
    hexCharVal (hexDigitChar d) = some d := by
  decide

theorem parseHexAux_map (ds : List Nat) :
    ∀ acc : Nat, (∀ d ∈ ds, d < 16) →
      parseHexAux acc (ds.map hexDigitChar) =
        some (acc * 16 ^ ds.length + Nat.ofDigits 16 ds.reverse) := by
  induction ds with
  | nil =>
    intro acc _
    simp [parseHexAux, Nat.ofDigits]
  | cons d rest ih =>
    intro acc h
    have hd : d < 16 := h d (List.mem_cons_self d rest)
    have hrest : ∀ d2 ∈ rest, d2 < 16 := fun d2 hm => h d2 (List.mem_cons_of_mem d hm)
    simp only [List.map_cons, parseHexAux, hexCharVal_hexDigitChar d hd]
    rw [ih (acc * 16 + d) hrest]
    congr 1
    rw [List.reverse_cons, Nat.ofDigits_append]
    simp only [List.length_cons, List.length_reverse]
    have : Nat.ofDigits 16 [d] = d := by simp [Nat.ofDigits]
    rw [this]
    ring

/-- Parsing the minimal hex digits of `n` yields `n` back. -/
theorem parseHexAux_natToHexChars (n : Nat) :
    parseHexAux 0 (natToHexChars n) = some n := by
  by_cases h0 : n = 0
  · subst h0
    decide
  · unfold natToHexChars
    rw [if_neg h0, parseHexAux_map ((Nat.digits 16 n).reverse) 0
      (fun d hm => Nat.digits_lt_base (by norm_num) (List.mem_reverse.mp hm))]
    rw [List.reverse_reverse, Nat.ofDigits_digits]
    simp

/-- Formatting a value in range and parsing it back through
`StarkFelt::from_hex` succeeds with the same value. -/
theorem StarkFelt.from_hex_format (n : Nat) (h : n < FELT_UPPER) :
    StarkFelt.from_hex ('0' :: 'x' :: natToHexChars n) = Except.ok ⟨n, h⟩ := by
  simp only [StarkFelt.from_hex, parseHexAux_natToHexChars n]
  rw [dif_pos h]

/-!
### Concrete inputs used by witnesses and counterexamples
-/

/-- The felt with value five. -/
def felt5 : StarkFelt := ⟨5, by norm_num [FELT_UPPER]⟩

/-- The felt with value seven. -/
def felt7 : StarkFelt := ⟨7, by norm_num [FELT_UPPER]⟩

/-- A state reader that fails every query. -/
def failReader : ContractStorageKey → Except String StarkFelt :=
  fun _ => Except.error "source unavailable"

/-- A state reader that answers every query with `felt5`. -/
def okReader5 : ContractStorageKey → Except String StarkFelt :=
  fun _ => Except.ok felt5

/-- A cached state over `failReader` whose initial-value layer already holds
`felt5` at key `(0, 0)`. -/
def sInit5 : CachedState :=
  ⟨failReader, StateCache.default.set_storage_initial_values 0 0 felt5⟩

/-- A dictionary state reader with an empty backing map. -/
def dictEmpty : DictStateReader := ⟨HMap.empty⟩

/-- A dictionary state reader holding `felt5` at `(0, 0)`. -/
def dict5 : DictStateReader := ⟨HMap.empty.insert (0, 0) felt5⟩

/-!
### Claim theorems
-/

/-- C1 (counterexample): `StateCache::set_storage_initial_values` is a blind
`HashMap::insert`, not an insert-if-absent: starting from an initial-value
layer holding `felt5` at key `(0, 0)`, calling it again with `felt7` replaces
the entry, so the existing value is not kept. -/
theorem set_storage_initial_values_blind_overwrite_cex :
    ((StateCache.default.set_storage_initial_values 0 0 felt5).storage_initial_values
        (0, 0) = some felt5) ∧
    (((StateCache.default.set_storage_initial_values 0 0 felt5).set_storage_initial_values
        0 0 felt7).storage_initial_values (0, 0) ≠ some felt5) := by
  constructor
  · decide
  · decide

/-- C1 (amended): `StateCache::set_storage_initial_values` itself overwrites
an existing entry (last write wins at the `StateCache` level); first-write-wins
nevertheless holds across `CachedState` operations, because the only call site
(`CachedState::get_storage_at`) invokes it solely when the key is absent from
both layers, so an initial-value entry, once present, is never changed by any
sequence of `get_storage_at` / `set_storage_at` calls. -/
theorem set_storage_initial_values_guarded_first_write_wins :
    (∀ (c : StateCache) (a : ContractAddress) (k : StorageKey) (v : StarkFelt),
      (c.set_storage_initial_values a k v).storage_initial_values (a, k) = some v) ∧
    (∀ (s : CachedState) (ops : List Op) (ck : ContractStorageKey) (w : StarkFelt),
      s.cache.storage_initial_values ck = some w →
      (s.runOps ops).1.cache.storage_initial_values ck = some w) := by
  constructor
  · intro c a k v
    exact HMap.insert_self _ _ _
  · intro s ops ck w h
    exact CachedState.runOps_initial_some ops s ck w h

/-- C1 (witness): the amended statement at concrete inputs — a blind insert
lands, and an existing initial-value entry survives a read, an overwrite and
another read of the same key. -/
theorem set_storage_initial_values_guarded_first_write_wins_witness :
    ((StateCache.default.set_storage_initial_values 1 2 felt7).storage_initial_values
        (1, 2) = some felt7) ∧
    ((sInit5.runOps [Op.get 0 0, Op.set 0 0 felt7, Op.get 0 0]).1.cache.storage_initial_values
        (0, 0) = some felt5) :=
  ⟨set_storage_initial_values_guarded_first_write_wins.1 StateCache.default 1 2 felt7,
   set_storage_initial_values_guarded_first_write_wins.2 sInit5
     [Op.get 0 0, Op.set 0 0 felt7, Op.get 0 0] (0, 0) felt5 (by decide)⟩

/-- C2: write shadowing.  After `set_storage_at(a, k, v)`, and after any
further operations none of which writes to `(a, k)`, `get_storage_at(a, k)`
returns `Ok(v)` — for every starting state (so regardless of what the state
reader holds and of whether `(a, k)` was read before the write).  Moreover the
cache-level read returns the write-layer value if present, else the
initial-value-layer entry (present or not). -/
theorem write_shadowing :
    (∀ (s : CachedState) (a : ContractAddress) (k : StorageKey) (v : StarkFelt)
      (ops : List Op), (∀ op ∈ ops, op.writesTo (a, k) = false) →
      (((s.set_storage_at a k v).runOps ops).1.get_storage_at a k).1 = Except.ok v) ∧
    (∀ (c : StateCache) (a : ContractAddress) (k : StorageKey) (w : StarkFelt),
      c.storage_writes (a, k) = some w → c.get_storage_at a k = some w) ∧
    (∀ (c : StateCache) (a : ContractAddress) (k : StorageKey),
      c.storage_writes (a, k) = none →
      c.get_storage_at a k = c.storage_initial_values (a, k)) := by
  refine ⟨?_, StateCache.get_storage_at_of_writes, StateCache.get_storage_at_of_writes_none⟩
  intro s a k v ops hops
  have hset : (s.set_storage_at a k v).cache.storage_writes (a, k) = some v :=
    HMap.insert_self _ _ _
  have hw : ((s.set_storage_at a k v).runOps ops).1.cache.storage_writes (a, k) = some v := by
    rw [CachedState.runOps_writes_preserved (a, k) ops (s.set_storage_at a k v) hops]
    exact hset
  rw [CachedState.get_storage_at_of_hit _ a k v
    (StateCache.get_storage_at_of_writes _ a k v hw)]

/-- C2 (witness): the shadowing statement at concrete inputs — a write of
`felt5` to `(0, 0)` over an always-failing reader, followed by a read of
`(0, 0)` and a write to a different key, still reads back `felt5`; plus both
cache-level precedence cases. -/
theorem write_shadowing_witness :
    ((((CachedState.new failReader).set_storage_at 0 0 felt5).runOps
        [Op.get 0 0, Op.set 1 1 felt7]).1.get_storage_at 0 0).1 = Except.ok felt5 ∧
    sInit5.cache.get_storage_at 0 0 = sInit5.cache.storage_initial_values (0, 0) ∧
    ((CachedState.new failReader).set_storage_at 0 0 felt5).cache.get_storage_at 0 0
      = some felt5 :=
  ⟨write_shadowing.1 (CachedState.new failReader) 0 0 felt5
      [Op.get 0 0, Op.set 1 1 felt7] (by decide),
   write_shadowing.2.2 sInit5.cache 0 0 (by decide),
   write_shadowing.2.1 ((CachedState.new failReader).set_storage_at 0 0 felt5).cache
      0 0 felt5 (by decide)⟩

/-- C3 (counterexample): the state reader can be consulted twice for the same
key.  Over `failReader` (every query fails), two consecutive
`get_storage_at(0, 0)` calls each miss the cache, each query the reader, and
the failed read populates nothing — so the query log holds key `(0, 0)`
twice, refuting "at most one reader query per distinct key over the object's
lifetime". -/
theorem reader_requeried_after_error_cex :
    ((CachedState.new failReader).runOps [Op.get 0 0, Op.get 0 0]).2.count (0, 0)
      = 2 := by
  decide

/-- C3 (amended): two consecutive `get_storage_at` calls for the same key
return the same result; once a key is resolved (present in either layer) no
operation sequence ever removes it or consults the state reader for it again;
and when the reader answers the key successfully, at most one reader query is
ever issued for it.  (A `get` whose reader query fails leaves the key
unresolved, so failed queries can repeat — see the counterexample.) -/
theorem read_through_idempotence_never_delete :
    (∀ (s : CachedState) (a : ContractAddress) (k : StorageKey),
      ((s.get_storage_at a k).2).get_storage_at a k
        = ((s.get_storage_at a k).1, (s.get_storage_at a k).2)) ∧
    (∀ (s : CachedState) (ops : List Op) (a : ContractAddress) (k : StorageKey),
      (s.cache.get_storage_at a k).isSome →
      (s.runOps ops).2.count (a, k) = 0 ∧
      ((s.runOps ops).1.cache.get_storage_at a k).isSome) ∧
    (∀ (s : CachedState) (ops : List Op) (a : ContractAddress) (k : StorageKey)
      (v : StarkFelt), s.state_reader (a, k) = Except.ok v →
      (s.runOps ops).2.count (a, k) ≤ 1) :=
  ⟨CachedState.get_get_eq,
   fun s ops a k h => CachedState.runOps_resolved a k ops s h,
   fun s ops a k v h => CachedState.runOps_count_le_one a k v ops s h⟩

/-- C3 (witness): the amended statement at concrete inputs — from a state
with `(0, 0)` resolved, a run issues no query for `(0, 0)` and keeps it
resolved; and over a succeeding reader a double read of `(0, 0)` queries it
at most once. -/
theorem read_through_idempotence_never_delete_witness :
    ((sInit5.runOps [Op.get 0 0, Op.get 1 1]).2.count (0, 0) = 0 ∧
      ((sInit5.runOps [Op.get 0 0, Op.get 1 1]).1.cache.get_storage_at 0 0).isSome) ∧
    ((CachedState.new okReader5).runOps [Op.get 0 0, Op.get 0 0]).2.count (0, 0) ≤ 1 :=
  ⟨read_through_idempotence_never_delete.2.1 sInit5 [Op.get 0 0, Op.get 1 1] 0 0
      (by decide),
   read_through_idempotence_never_delete.2.2 (CachedState.new okReader5)
      [Op.get 0 0, Op.get 0 0] 0 0 felt5 rfl⟩

/-- C4 (counterexample): a `CachedState` whose reader errors for `(0, 0)` does
not always return that error from `get_storage_at(0, 0)`: if `(0, 0)` was
written first, the cached write shadows the reader and the call returns
`Ok(felt5)`. -/
theorem error_propagation_requires_unresolved_cex :
    failReader (0, 0) = Except.error "source unavailable" ∧
    (((CachedState.new failReader).set_storage_at 0 0 felt5).get_storage_at 0 0).1
      = Except.ok felt5 :=
  ⟨rfl, rfl⟩

/-- C4 (amended): when the reader errors for `(a, k)` *and* `(a, k)` is absent
from both cache layers, `get_storage_at(a, k)` returns exactly that error and
the whole `CachedState` is unchanged — in particular no entry is created in
either layer and every previously resolved entry is untouched. -/
theorem miss_error_propagates_state_unchanged (s : CachedState)
    (a : ContractAddress) (k : StorageKey) (e : String)
    (h1 : s.state_reader (a, k) = Except.error e)
    (h2 : s.cache.get_storage_at a k = none) :
    s.get_storage_at a k = (Except.error e, s) :=
  CachedState.get_storage_at_of_miss_error s a k e h2 h1

/-- C4 (witness): the amended statement at a concrete input — reading the
unresolved key `(2, 3)` of `sInit5` (whose reader always fails) returns the
reader error and leaves the state, including the resolved entry at `(0, 0)`,
unchanged. -/
theorem miss_error_propagates_state_unchanged_witness :
    sInit5.get_storage_at 2 3 = (Except.error "source unavailable", sInit5) :=
  miss_error_propagates_state_unchanged sInit5 2 3 "source unavailable"
    rfl (by decide)

/-- C5: the initial-value layer is populated at most once per key and only by
read-miss resolution.  Over every operation sequence an initial-value entry,
once present, keeps its value forever; and `set_storage_at` leaves the whole
initial-value layer unchanged and issues no state-reader query (so a write to
a never-read key creates no initial-value entry and is source-free). -/
theorem initial_layer_once_and_write_source_free :
    (∀ (s : CachedState) (ops : List Op) (ck : ContractStorageKey) (w : StarkFelt),
      s.cache.storage_initial_values ck = some w →
      (s.runOps ops).1.cache.storage_initial_values ck = some w) ∧
    (∀ (s : CachedState) (a : ContractAddress) (k : StorageKey) (v : StarkFelt),
      (s.set_storage_at a k v).cache.storage_initial_values
        = s.cache.storage_initial_values ∧
      s.queriesOf (Op.set a k v) = []) := by
  constructor
  · intro s ops ck w h
    exact CachedState.runOps_initial_some ops s ck w h
  · intro s a k v
    exact ⟨rfl, rfl⟩

/-- C5 (witness): the statement at concrete inputs — the initial-value entry
of `sInit5` at `(0, 0)` survives a read, a shadowing write and a re-read with
its value intact, and a write to the never-read key `(4, 4)` touches no
initial values and issues no query. -/
theorem initial_layer_once_and_write_source_free_witness :
    ((sInit5.runOps [Op.get 0 0, Op.set 0 0 felt7, Op.get 0 0]).1.cache.storage_initial_values
        (0, 0) = some felt5) ∧
    (((CachedState.new failReader).set_storage_at 4 4 felt7).cache.storage_initial_values
        = (CachedState.new failReader).cache.storage_initial_values ∧
      (CachedState.new failReader).queriesOf (Op.set 4 4 felt7) = []) :=
  ⟨initial_layer_once_and_write_source_free.1 sInit5
      [Op.get 0 0, Op.set 0 0 felt7, Op.get 0 0] (0, 0) felt5 (by decide),
   initial_layer_once_and_write_source_free.2 (CachedState.new failReader) 4 4 felt7⟩

/-- C6: `CachedState::set_storage_at` never fails (in this model it is a total
function into `CachedState`, mirroring the Rust signature returning `()`), and
it modifies only the storage write layer at its own key: the state reader, the
initial-value layers, the nonce and class-hash write layers, and every other
storage-write entry are unchanged, while no state-reader query is issued. -/
theorem set_storage_at_frame (s : CachedState) (a : ContractAddress)
    (k : StorageKey) (v : StarkFelt) :
    (s.set_storage_at a k v).state_reader = s.state_reader ∧
    (s.set_storage_at a k v).cache.storage_initial_values
      = s.cache.storage_initial_values ∧
    (s.set_storage_at a k v).cache.nonce_initial_values
      = s.cache.nonce_initial_values ∧
    (s.set_storage_at a k v).cache.class_hash_initial_values
      = s.cache.class_hash_initial_values ∧
    (s.set_storage_at a k v).cache.nonce_writes = s.cache.nonce_writes ∧
    (s.set_storage_at a k v).cache.class_hash_writes = s.cache.class_hash_writes ∧
    (s.set_storage_at a k v).cache.storage_writes (a, k) = some v ∧
    (∀ ck : ContractStorageKey, ck ≠ (a, k) →
      (s.set_storage_at a k v).cache.storage_writes ck = s.cache.storage_writes ck) ∧
    s.queriesOf (Op.set a k v) = [] := by
  refine ⟨rfl, rfl, rfl, rfl, rfl, rfl, HMap.insert_self _ _ _, ?_, rfl⟩
  intro ck hck
  exact HMap.insert_ne _ _ _ _ hck

/-- C6 (witness): the frame statement at concrete inputs — writing `felt5` at
`(0, 0)` records it there and leaves the write-layer entry at `(1, 2)`
unchanged. -/
theorem set_storage_at_frame_witness :
    ((CachedState.new okReader5).set_storage_at 0 0 felt5).cache.storage_writes (0, 0)
      = some felt5 ∧
    ((CachedState.new okReader5).set_storage_at 0 0 felt5).cache.storage_writes (1, 2)
      = (CachedState.new okReader5).cache.storage_writes (1, 2) :=
  ⟨(set_storage_at_frame (CachedState.new okReader5) 0 0 felt5).2.2.2.2.2.2.1,
   (set_storage_at_frame (CachedState.new okReader5) 0 0 felt5).2.2.2.2.2.2.2.1
      (1, 2) (by decide)⟩

/-- C7: `DictStateReader::get_storage_at` never errors: for a pair absent from
the backing map it returns `Ok` of the uninitialized default
(`StarkFelt::default()`, the zero felt), and for a present pair it returns
`Ok` of the stored value. -/
theorem dict_state_reader_default_on_absent (r : DictStateReader)
    (a : ContractAddress) (k : StorageKey) :
    (r.contract_storage_key_to_value (a, k) = none →
      r.get_storage_at a k = Except.ok default_storage_value) ∧
    (∀ v : StarkFelt, r.contract_storage_key_to_value (a, k) = some v →
      r.get_storage_at a k = Except.ok v) ∧
    default_storage_value.val = 0 := by
  refine ⟨?_, ?_, rfl⟩
  · intro h
    simp [DictStateReader.get_storage_at, h]
  · intro v h
    simp [DictStateReader.get_storage_at, h]

/-- C7 (witness): the statement at concrete inputs — the empty dictionary
reader answers `(0, 0)` with the zero default, and `dict5` answers `(0, 0)`
with the stored `felt5`. -/
theorem dict_state_reader_default_on_absent_witness :
    dictEmpty.get_storage_at 0 0 = Except.ok default_storage_value ∧
    dict5.get_storage_at 0 0 = Except.ok felt5 :=
  ⟨(dict_state_reader_default_on_absent dictEmpty 0 0).1 rfl,
   (dict_state_reader_default_on_absent dict5 0 0).2.1 felt5 (by decide)⟩

/-- `Nonce::default()`: the zero nonce. -/
def default_nonce : Nonce := ⟨uninitialized_felt⟩

/-- Modelled from the spec: the source ships no implementation of
`get_nonce_at` (the `StateReader` trait default in
`src/blockifier/src/cached_state.rs` is an `unimplemented!()` stub and
`DictStateReader` does not override it); per the specified state-source
contract, a dictionary-backed reader holds a nonce map keyed by contract
address. -/
structure DictNonceReader where
  address_to_nonce : HMap ContractAddress Nonce

/-- Modelled from the spec: the missing dictionary-backed `get_nonce_at` —
"absence of a contract/key is a legitimate state, not an error", so an absent
address yields the defined default (zero `Nonce`) wrapped in `Ok`. -/
def DictNonceReader.get_nonce_at (r : DictNonceReader)
    (contract_address : ContractAddress) : Except String Nonce :=
  Except.ok ((r.address_to_nonce contract_address).getD default_nonce)

/-- C8: for a state reader with no backing entry for a contract address,
`get_nonce_at` returns `Ok` of the defined default nonce — zero — and does
not error. -/
theorem get_nonce_at_default_zero (r : DictNonceReader) (a : ContractAddress)
    (h : r.address_to_nonce a = none) :
    r.get_nonce_at a = Except.ok default_nonce ∧ default_nonce.val.val = 0 := by
  refine ⟨?_, rfl⟩
  simp [DictNonceReader.get_nonce_at, h]

/-- C8 (witness): the statement at a concrete input — a reader with an empty
nonce map answers address `3` with the zero default nonce. -/
theorem get_nonce_at_default_zero_witness :
    DictNonceReader.get_nonce_at ⟨HMap.empty⟩ 3 = Except.ok default_nonce ∧
    default_nonce.val.val = 0 :=
  get_nonce_at_default_zero ⟨HMap.empty⟩ 3 rfl

/-- C9: the cache-integrity error branch of `CachedState::get_storage_at`
(the `with_context` failure after a miss-fill) is unreachable: whenever the
state reader answers `(a, k)` successfully, the cache lookup performed after
the call is `Some` and the call returns `Ok`. -/
theorem cache_integrity_branch_unreachable (s : CachedState)
    (a : ContractAddress) (k : StorageKey) (v : StarkFelt)
    (h : s.state_reader (a, k) = Except.ok v) :
    (((s.get_storage_at a k).2).cache.get_storage_at a k).isSome ∧
    ∃ w, (s.get_storage_at a k).1 = Except.ok w := by
  rcases CachedState.get_storage_at_cases s a k with
    ⟨w, hc, he⟩ | ⟨e, hc, hr, he⟩ | ⟨v2, hc, hr, he⟩
  · rw [he]
    exact ⟨Option.isSome_iff_exists.mpr ⟨w, hc⟩, w, rfl⟩
  · rw [h] at hr
    cases hr
  · rw [he]
    have hw := ((StateCache.get_storage_at_eq_none_iff s.cache a k).mp hc).1
    refine ⟨?_, v2, rfl⟩
    rw [show ((Except.ok v2, { s with cache := s.cache.set_storage_initial_values a k v2 }) :
        Except String StarkFelt × CachedState).2.cache = s.cache.set_storage_initial_values a k v2 from rfl]
    rw [StateCache.fill_get s.cache a k v2 hw]
    rfl

/-- C9 (witness): the statement at a concrete input — over `okReader5`, a
fresh read of `(0, 0)` succeeds and leaves the key resolved in the cache. -/
theorem cache_integrity_branch_unreachable_witness :
    ((((CachedState.new okReader5).get_storage_at 0 0).2).cache.get_storage_at 0 0).isSome ∧
    ∃ w, (((CachedState.new okReader5).get_storage_at 0 0).1) = Except.ok w :=
  cache_integrity_branch_unreachable (CachedState.new okReader5) 0 0 felt5 rfl

/-- C10: felt/bigint round trip — for every `StarkFelt` the produced `BigInt`
is non-negative, and `bigint_to_felt` (negative check, `{:#x}` formatting,
`StarkFelt::from_hex` parsing) maps it back to `Ok` of the original felt. -/
theorem felt_bigint_roundtrip (f : StarkFelt) :
    0 ≤ felt_to_bigint f ∧ bigint_to_felt (felt_to_bigint f) = Except.ok f := by
  refine ⟨Int.natCast_nonneg f.val, ?_⟩
  unfold bigint_to_felt felt_to_bigint
  rw [if_neg (Int.not_lt.mpr (Int.natCast_nonneg f.val)), Int.toNat_natCast]
  rw [StarkFelt.from_hex_format f.val f.2]

/-- C10 (witness): the round trip at a concrete felt. -/
theorem felt_bigint_roundtrip_witness :
    0 ≤ felt_to_bigint felt5 ∧ bigint_to_felt (felt_to_bigint felt5) = Except.ok felt5 :=
  felt_bigint_roundtrip felt5
